import Mathlib

/-!
# Verification of the boto authentication module (`boto/auth.py`)

A shallow embedding of the request-authentication layer of the boto
client library: credential resolution (`HmacKeys._get_keys`), the header
HMAC strategy (`HmacAuthHandler`), the three query-signature strategies
(`QuerySignatureV0AuthHandler`, `QuerySignatureV1AuthHandler`,
`QuerySignatureV2AuthHandler`), and the handler resolver
(`get_auth_handler`).

Python byte strings are modelled as Lean `String` (one `Char` per byte;
all concrete inputs are ASCII).  Dictionaries are association lists with
Python's update semantics (replace in place, append at the end).  The
external hash, base64 and canonical-string primitives (`hmac`, `hashlib`,
`base64.b64encode`, `base64.encodestring`, `boto.utils.canonical_string`)
are abstracted as function parameters: the theorems hold for every choice
of those primitives.  Exceptions are modelled with `Except`.
-/

namespace BotoAuth

/-- Python exceptions that the embedded code can raise. -/
inductive PyError where
  /-- Python `NameError`: an undefined name was referenced. -/
  | nameError (name : String)
  /-- Python `KeyError`: a dictionary subscript with a missing key. -/
  | keyError (key : String)
  deriving DecidableEq, Repr

/-! ## Python string primitives -/

/-- Model of Python 2 `str.lower` on byte strings: lowercase the ASCII
letters `A`-`Z`, leave every other byte unchanged. -/
def pyLower (s : String) : String :=
  ⟨s.data.map fun c =>
    if c.toNat ≥ 65 && c.toNat ≤ 90 then Char.ofNat (c.toNat + 32) else c⟩

/-- Byte-wise lexicographic comparison of char lists (Python 2 `cmp` on
byte strings): `[] ≤ l`, and `a :: as ≤ b :: bs` iff `a < b` or
(`a = b` and `as ≤ bs`). -/
def charListLe : List Char → List Char → Bool
  | [], _ => true
  | _ :: _, [] => false
  | a :: as, b :: bs =>
    if a.toNat < b.toNat then true
    else if b.toNat < a.toNat then false
    else charListLe as bs

/-- Python 2 `<=` on byte strings: byte-wise lexicographic order. -/
def pyStrLe (a b : String) : Bool := charListLe a.data b.data

/-- Stable insertion of an element into a list sorted by `le`: the new
element goes before the first element it is `le`-below-or-tied-with.
With a non-strict `le` this keeps ties in their original order, matching
Python's stable `list.sort`. -/
def insertSortedBy (le : α → α → Bool) (x : α) : List α → List α
  | [] => [x]
  | y :: ys => if le x y then x :: y :: ys else y :: insertSortedBy le x ys

/-- Stable insertion sort, modelling Python's stable `list.sort(cmp)`. -/
def sortBy (le : α → α → Bool) : List α → List α
  | [] => []
  | x :: xs => insertSortedBy le x (sortBy le xs)

/-- Model of `keys.sort(cmp = lambda x, y: cmp(x.lower(), y.lower()))`:
case-insensitive key sort used by the V0 and V1 strategies. -/
def sortKeysCI (keys : List String) : List String :=
  sortBy (fun a b => pyStrLe (pyLower a) (pyLower b)) keys

/-- Model of `keys.sort()`: raw byte-order key sort used by the V2 strategy. -/
def sortKeysRaw (keys : List String) : List String :=
  sortBy pyStrLe keys

/-- Characters Python 2 `urllib.quote` never escapes:
ASCII letters, digits, and `_`, `.`, `-`. -/
def pyAlwaysSafeChar (c : Char) : Bool :=
  (c.toNat ≥ 65 && c.toNat ≤ 90) || (c.toNat ≥ 97 && c.toNat ≤ 122) ||
  (c.toNat ≥ 48 && c.toNat ≤ 57) || c == Char.ofNat 95 || c == Char.ofNat 46 ||
  c == Char.ofNat 45

/-- Uppercase hexadecimal digit for `n < 16`. -/
def hexDigitUpper (n : Nat) : Char :=
  if n < 10 then Char.ofNat (48 + n) else Char.ofNat (65 + n - 10)

/-- Percent-encode a single byte as `%XX` with uppercase hex. -/
def percentEncodeChar (c : Char) : String :=
  "%" ++ String.singleton (hexDigitUpper (c.toNat / 16 % 16)) ++
  String.singleton (hexDigitUpper (c.toNat % 16))

/-- Model of Python 2 `urllib.quote(s, safe)`: each byte that is neither
always-safe nor in `safe` is replaced by `%XX` (uppercase hex). The
default call `urllib.quote(s)` corresponds to `safe = ['/']`. -/
def pyQuote (s : String) (safe : List Char) : String :=
  String.join (s.data.map fun c =>
    if pyAlwaysSafeChar c || safe.contains c then String.singleton c
    else percentEncodeChar c)

/-- Python whitespace bytes recognised by `str.strip`. -/
def pySpaceChar (c : Char) : Bool :=
  c == Char.ofNat 32 || c == Char.ofNat 9 || c == Char.ofNat 10 ||
  c == Char.ofNat 13 || c == Char.ofNat 11 || c == Char.ofNat 12

/-- Model of Python `str.strip()`: remove leading and trailing
whitespace. -/
def pyStrip (s : String) : String :=
  ⟨((s.data.dropWhile pySpaceChar).reverse.dropWhile pySpaceChar).reverse⟩

/-- Model of Python `str.endswith(suffix)` on byte strings: the last
`suffix.length` bytes equal `suffix`. -/
def pyEndsWith (s suffix : String) : Bool :=
  decide (s.data.drop (s.data.length - suffix.data.length) = suffix.data)

/-- First index at which `sub` occurs in `l`, if any
(`str.find` returning an index rather than `-1`). -/
def findSubAux (sub : List Char) : List Char → Nat → Option Nat
  | [], i => if sub.isEmpty then some i else none
  | c :: t, i =>
    if sub.isPrefixOf (c :: t) then some i else findSubAux sub t (i + 1)

/-- Model of Python `str.find(sub)`: `some i` for the first occurrence,
`none` where Python returns `-1`. -/
def pyFind (s sub : String) : Option Nat := findSubAux sub.data s.data 0

/-- Python `repr` of a string (single quotes, used by `str` on lists of
names; the diagnostic names here contain no characters needing escapes). -/
def pyRepr (s : String) : String :=
  String.singleton (Char.ofNat 39) ++ s ++ String.singleton (Char.ofNat 39)

/-- Python `str` of a list of strings: `[` + comma-separated `repr`s + `]`. -/
def pyStrList (names : List String) : String :=
  "[" ++ String.intercalate ", " (names.map pyRepr) ++ "]"

/-! ## Dictionaries -/

/-- Python `d[k] = v` on a dict modelled as an association list: replace
the value at an existing key in place, otherwise append the new pair. -/
def dictInsert (k v : String) : List (String × String) → List (String × String)
  | [] => [(k, v)]
  | (k₀, v₀) :: t => if k₀ == k then (k₀, v) :: t else (k₀, v₀) :: dictInsert k v t

@[simp] theorem lookup_dictInsert_self (k v : String)
    (d : List (String × String)) : (dictInsert k v d).lookup k = some v := by
  induction d with
  | nil => simp [dictInsert, List.lookup]
  | cons p t ih =>
    obtain ⟨k₀, v₀⟩ := p
    by_cases h : k₀ = k
    · subst h; simp [dictInsert, List.lookup]
    · have hb : (k₀ == k) = false := beq_false_of_ne h
      have hb' : (k == k₀) = false := beq_false_of_ne (Ne.symm h)
      simp [dictInsert, List.lookup, hb, hb', ih]

theorem lookup_dictInsert_ne (k₁ k₂ v : String) (d : List (String × String))
    (h : k₁ ≠ k₂) : (dictInsert k₂ v d).lookup k₁ = d.lookup k₁ := by
  induction d with
  | nil => simp [dictInsert, List.lookup, beq_false_of_ne h]
  | cons p t ih =>
    obtain ⟨k₀, v₀⟩ := p
    by_cases h₀ : k₀ = k₂
    · subst h₀
      simp [dictInsert, List.lookup, beq_false_of_ne h]
    · simp [dictInsert, List.lookup, beq_false_of_ne h₀, ih]

/-! ## Data model -/

/-- The provider descriptor consumed by the auth module: a name
(`aws` or `google`) and the `Authorization` scheme string. -/
structure Provider where
  name : String
  auth_header : String
  deriving DecidableEq, Repr

/-- Modelled from the spec: the configuration source (`boto.pyami.config`,
not part of the sources under inspection) is a key-value store queried as
`has_option(section, key) -> bool` and `get(section, key) -> string`. -/
structure Config where
  has_option : String → String → Bool
  get : String → String → String

/-- The mutable HTTP request value signed by the strategies. -/
structure Request where
  method : String
  host : String
  port : Nat
  path : String
  headers : List (String × String)
  params : List (String × String)
  body : String
  deriving DecidableEq, Repr

/-- Modelled from the spec: `boto.utils.get_utf8_value` (not part of the
sources under inspection) encodes a parameter value to a UTF-8 byte
string; on values that are already byte strings — the only values in this
model — it is the identity. -/
def get_utf8_value (s : String) : String := s

/-! ## Credential resolution (`HmacKeys._get_keys`) -/

/-- Translation of `HmacKeys._get_keys(config, provider)`: the credential pair for the
provider, or `none` where Python returns `None`. -/
def HmacKeys._get_keys (config : Config) (provider : Provider) :
    Option (String × String) :=
  if provider.name == "aws" &&
      config.has_option "Credentials" "aws_secret_access_key" then
    let secret_key := config.get "Credentials" "aws_secret_access_key"
    let access_key := config.get "Credentials" "aws_access_key_id"
    some (access_key, secret_key)
  else if provider.name == "google" &&
      config.has_option "Credentials" "gs_secret_access_key" then
    let secret_key := config.get "Credentials" "gs_secret_access_key"
    let access_key := config.get "Credentials" "gs_access_key_id"
    some (access_key, secret_key)
  else
    none

/-! ## Host-eligibility checks -/

/-- Constant `HmacAuthHandler.S3_ENDPOINT`. -/
def S3_ENDPOINT : String := "s3.amazonaws.com"

/-- Constant `HmacAuthHandler.GS_ENDPOINT`. -/
def GS_ENDPOINT : String := "commondatastorage.googleapis.com"

/-- The host check in `HmacAuthHandler.__init__`: the handler stays ready
only when the host ends with the S3 or GS endpoint, otherwise it raises
`NotReadyToAuthenticate`. -/
def hmacHostEligible (host : String) : Bool :=
  pyEndsWith host S3_ENDPOINT || pyEndsWith host GS_ENDPOINT

/-- The host check in `QuerySignatureHelper.__init__`: the helper stays
ready only for hosts ending with `.amazonaws.com` that do not end with
`s3.amazonaws.com`. -/
def queryHostEligible (host : String) : Bool :=
  pyEndsWith host ".amazonaws.com" && !(pyEndsWith host "s3.amazonaws.com")

/-! ## Header HMAC strategy (`HmacAuthHandler`) -/

/-- Translation of `HmacAuthHandler._get_bucket(http_request)`: `/<bucket>` when the host
has the form `<bucket>.<endpoint>` for the S3 or GS endpoint, else `""`. -/
def HmacAuthHandler._get_bucket (host : String) : String :=
  match pyFind host ("." ++ S3_ENDPOINT) with
  | some i => "/" ++ ⟨host.data.take i⟩
  | none =>
    match pyFind host ("." ++ GS_ENDPOINT) with
    | some i => "/" ++ ⟨host.data.take i⟩
    | none => ""

/-- Translation of `HmacAuthHandler.add_auth(http_request)`.

External primitives are parameters: `canonical_string` is
`boto.utils.canonical_string` with the provider folded in (the spec treats
it as a black box), `hmacSha1Digest` is the keyed SHA-1 HMAC digest
`self._hmac.copy(); update; digest()` as a function of the message,
`encodestring` is `base64.encodestring`, and `now` is the
`time.strftime(...RFC-1123...GMT...)` reading of the wall clock. -/
def HmacAuthHandler.add_auth
    (canonical_string : String → String → List (String × String) → String)
    (hmacSha1Digest : String → List Nat) (encodestring : List Nat → String)
    (auth_header access_key now : String) (req : Request) : Request :=
  let auth_path := HmacAuthHandler._get_bucket req.host ++ req.path
  let headers :=
    if (req.headers.lookup "Date").isSome then req.headers
    else dictInsert "Date" now req.headers
  let c_string := canonical_string req.method auth_path headers
  let b64_hmac := pyStrip (encodestring (hmacSha1Digest c_string))
  { req with
    headers := dictInsert "Authorization"
      (auth_header ++ " " ++ access_key ++ ":" ++ b64_hmac) headers }

/-! ## Query-signature strategies -/

/-- Translation of `QuerySignatureHelper._server_name(host, port)`.  Here `py26or27` models
`sys.version[:3] in ("2.6", "2.7")`, an input from the runtime. -/
def QuerySignatureHelper._server_name (py26or27 : Bool) (host : String)
    (port : Nat) : String :=
  if port == 80 then host
  else if py26or27 && port == 443 then host
  else host ++ ":" ++ toString port

/-- Translation of `QuerySignatureV0AuthHandler._calc_signature(params, *args)`.

The hash is signed over `params["Action"] + params["Timestamp"]` (raising
`KeyError` when either is missing).  The query-string loop then evaluates
`bot.utils.get_utf8_value(...)` — the name `bot` is undefined in the
module, so the first iteration raises `NameError`; only with no keys at
all does the loop complete. -/
def QuerySignatureV0AuthHandler._calc_signature
    (hmacSha1Digest : String → List Nat) (b64encode : List Nat → String)
    (params : List (String × String)) : Except PyError (String × String) :=
  match params.lookup "Action" with
  | none => .error (.keyError "Action")
  | some action =>
    match params.lookup "Timestamp" with
    | none => .error (.keyError "Timestamp")
    | some timestamp =>
      let s := action ++ timestamp
      let keys := sortKeysCI (params.map Prod.fst)
      match keys with
      | [] => .ok ("", b64encode (hmacSha1Digest s))
      | _ :: _ => .error (.nameError "bot")

/-- Translation of `QuerySignatureV1AuthHandler._calc_signature(params, *args)`.

The single loop over the case-insensitively sorted keys both feeds
`key` then the UTF-8 `value` into the keyed hash and accumulates the
`key=quote(value)` query-string pairs; sequential `hmac.update` calls are
modelled as the digest of the concatenated updates. -/
def QuerySignatureV1AuthHandler._calc_signature
    (hmacSha1Digest : String → List Nat) (b64encode : List Nat → String)
    (params : List (String × String)) : String × String :=
  let keys := sortKeysCI (params.map Prod.fst)
  let parts := keys.map fun key =>
    let val := get_utf8_value ((params.lookup key).getD "")
    (key ++ val, key ++ "=" ++ pyQuote val [Char.ofNat 47])
  let qs := String.intercalate "&" (parts.map Prod.snd)
  (qs, b64encode (hmacSha1Digest (String.join (parts.map Prod.fst))))

/-- Translation of `QuerySignatureV2AuthHandler._calc_signature(params, verb, path,
server_name)`.

`has256` models `self._hmac_256` being non-`None` (a SHA-256 primitive
was importable); the matching `SignatureMethod` is written into `params`
before the keys are listed, and the matching keyed digest signs
`string_to_sign`. -/
def QuerySignatureV2AuthHandler._calc_signature
    (hmacSha1Digest hmacSha256Digest : String → List Nat) (has256 : Bool)
    (b64encode : List Nat → String) (params : List (String × String))
    (verb path server_name : String) : String × String :=
  let string_to_sign := verb ++ "\n" ++ pyLower server_name ++ "\n" ++ path ++ "\n"
  let hmacDigest := if has256 then hmacSha256Digest else hmacSha1Digest
  let params :=
    if has256 then dictInsert "SignatureMethod" "HmacSHA256" params
    else dictInsert "SignatureMethod" "HmacSHA1" params
  let keys := sortKeysRaw (params.map Prod.fst)
  let pairs := keys.map fun key =>
    let val := get_utf8_value ((params.lookup key).getD "")
    pyQuote key [] ++ "=" ++ pyQuote val [Char.ofNat 45, Char.ofNat 95, Char.ofNat 126]
  let qs := String.intercalate "&" pairs
  let string_to_sign := string_to_sign ++ qs
  (qs, b64encode (hmacDigest string_to_sign))

/-- Translation of `QuerySignatureHelper.add_auth(http_request)`, shared by the three
query strategies.  `calcSig` is the subclass's `_calc_signature`
(`Except`-valued because V0's raises); `sigVersion` is the string form of
the class's `SignatureVersion` attribute; `timestamp` is the
`time.strftime("%Y-%m-%dT%H:%M:%S", gmtime())` wall-clock reading. -/
def QuerySignatureHelper.add_auth
    (calcSig : List (String × String) → String → String → String →
      Except PyError (String × String))
    (access_key sigVersion timestamp : String) (py26or27 : Bool)
    (req : Request) : Except PyError Request :=
  let server_name := QuerySignatureHelper._server_name py26or27 req.host req.port
  let params :=
    dictInsert "Timestamp" timestamp
      (dictInsert "SignatureVersion" sigVersion
        (dictInsert "AWSAccessKeyId" access_key req.params))
  match calcSig params req.method req.path server_name with
  | .error e => .error e
  | .ok (qs, signature) =>
    if req.method == "POST" then
      .ok { req with
        headers := dictInsert "Content-Type"
          "application/x-www-form-urlencoded; charset=UTF-8" req.headers,
        body := qs ++ "&Signature=" ++ pyQuote signature [Char.ofNat 47],
        params := [] }
    else
      .ok { req with
        body := "",
        path := req.path ++ "?" ++ qs ++ "&Signature=" ++
          pyQuote signature [Char.ofNat 47],
        params := [] }

/-! ## Handler resolution (`get_auth_handler`) -/

/-- A constructed handler instance; `className` is `__class__.__name__`. -/
structure HandlerInst where
  className : String
  deriving DecidableEq, Repr

/-- Outcome of attempting `handler(host, config, provider)` on one
candidate class: a constructed instance, the `NotReadyToAuthenticate`
control signal, or any other exception. -/
inductive ConstructOutcome where
  | ready (inst : HandlerInst)
  | notReady
  | error (exn : String)
  deriving DecidableEq, Repr

/-- A candidate handler class: its `__name__` and what constructing it
does for the given `(host, config, provider)`. -/
structure Candidate where
  name : String
  outcome : ConstructOutcome
  deriving DecidableEq, Repr

/-- Ways `get_auth_handler` can fail. -/
inductive ResolveError where
  /-- Exception `boto.exception.NoAuthHandlerFound` with its message. -/
  | noAuthHandlerFound (msg : String)
  /-- Exception `boto.exception.TooManyAuthHandlerReadyToAuthenticate` with its
  message. -/
  | tooMany (msg : String)
  /-- An exception other than `NotReadyToAuthenticate` escaping a
  candidate's constructor propagates out of the loop unmodified. -/
  | uncaught (exn : String)
  deriving DecidableEq, Repr

/-- The `for handler in auth_handlers` loop of `get_auth_handler`:
append constructed instances, `pass` on `NotReadyToAuthenticate`, and let
any other exception escape the whole loop. -/
def resolveLoop : List Candidate → List HandlerInst →
    Except ResolveError (List HandlerInst)
  | [], acc => .ok acc
  | c :: rest, acc =>
    match c.outcome with
    | .ready inst => resolveLoop rest (acc ++ [inst])
    | .notReady => resolveLoop rest acc
    | .error e => .error (.uncaught e)

/-- The instances of the candidates whose construction succeeds. -/
def readyInstances (cs : List Candidate) : List HandlerInst :=
  cs.filterMap fun c =>
    match c.outcome with
    | .ready inst => some inst
    | _ => none

/-- Holds (`true`) when no candidate's constructor raises an exception other than
`NotReadyToAuthenticate`. -/
def errorFreeB (cs : List Candidate) : Bool :=
  cs.all fun c =>
    match c.outcome with
    | .error _ => false
    | _ => true

/-- Translation of `get_auth_handler(host, config, provider, requested_capability)`,
after plugin enumeration produced the candidate list `cs`.  The final
three-way match mirrors the `if not ready_handlers` /
`if len(ready_handlers) > 1` guards followed by `return
ready_handlers[0]`. -/
def get_auth_handler (cs : List Candidate) : Except ResolveError HandlerInst :=
  match resolveLoop cs [] with
  | .error e => .error e
  | .ok ready_handlers =>
    match ready_handlers with
    | [] =>
      let names := cs.map Candidate.name
      .error (.noAuthHandlerFound
        ("No handler was ready to authenticate. " ++ toString names.length ++
         " handlers were checked. " ++ pyStrList names ++ " "))
    | [inst] => .ok inst
    | h₁ :: h₂ :: t =>
      let names := (h₁ :: h₂ :: t).map HandlerInst.className
      .error (.tooMany
        (toString names.length ++ " AuthHandlers ready to authenticate, " ++
         "only 1 expected: " ++ pyStrList names))

/-! ## Spec-side restatements

Definitions following the spec's words, to be compared with the ones
translated from the source. -/

/-- Following the spec's words: the `SignatureMethod` injected by V2 is
`HmacSHA256` when a SHA-256 primitive is available, else `HmacSHA1`. -/
def specSignatureMethodV2 (has256 : Bool) : String :=
  if has256 then "HmacSHA256" else "HmacSHA1"

/-- Following the spec's words: the V2 canonical query string is built
from all params, keys sorted in raw byte order, each key percent-encoded
with no safe characters and each value percent-encoded with `-_~` safe,
pairs joined by `&`. -/
def specCanonicalQueryV2 (params : List (String × String)) : String :=
  String.intercalate "&"
    ((sortKeysRaw (params.map Prod.fst)).map fun k =>
      pyQuote k [] ++ "=" ++
      pyQuote (get_utf8_value ((params.lookup k).getD ""))
        [Char.ofNat 45, Char.ofNat 95, Char.ofNat 126])

/-- Following the spec's words: the V2 signed string is
`METHOD + "\n" + lowercase(server_name) + "\n" + path + "\n" +
canonical_query_string`. -/
def specStringToSignV2 (method server_name path qs : String) : String :=
  method ++ "\n" ++ pyLower server_name ++ "\n" ++ path ++ "\n" ++ qs

/-- Following the spec's words: the V1 signed stream feeds each key then
its UTF-8 value, across all params in case-insensitive sorted key order,
with no separators. -/
def specSignedStreamV1 (params : List (String × String)) : String :=
  String.join
    ((sortKeysCI (params.map Prod.fst)).map fun k =>
      k ++ get_utf8_value ((params.lookup k).getD ""))

/-- Following the spec's words: the V0/V1 query string concatenates
`key=url_escape(value)` pairs for all params sorted by case-insensitive
key, joined with `&`. -/
def specQueryStringV01 (params : List (String × String)) : String :=
  String.intercalate "&"
    ((sortKeysCI (params.map Prod.fst)).map fun k =>
      k ++ "=" ++
      pyQuote (get_utf8_value ((params.lookup k).getD "")) [Char.ofNat 47])

/-! ## Claim theorems -/

/-- C2: for every request signed by the V2 strategy, the signed string is
`METHOD + "\n" + lowercase(server_name) + "\n" + path + "\n" + qs` where
`qs` is the canonical query string over all params including the injected
`SignatureMethod` (`HmacSHA256` when SHA-256 is available, else
`HmacSHA1`), keys sorted in raw byte order, keys percent-encoded with no
safe characters and values with `-_~` safe, joined by `&`; the returned
signature is the base64 encoding of the chosen keyed-hash digest over
that string. -/
theorem calc_signature_v2_spec (hmacSha1Digest hmacSha256Digest : String → List Nat)
    (has256 : Bool) (b64encode : List Nat → String)
    (params : List (String × String)) (verb path server_name : String) :
    QuerySignatureV2AuthHandler._calc_signature hmacSha1Digest hmacSha256Digest
        has256 b64encode params verb path server_name =
      (specCanonicalQueryV2
          (dictInsert "SignatureMethod" (specSignatureMethodV2 has256) params),
       b64encode ((if has256 then hmacSha256Digest else hmacSha1Digest)
         (specStringToSignV2 verb server_name path
           (specCanonicalQueryV2
             (dictInsert "SignatureMethod" (specSignatureMethodV2 has256) params))))) := by
  cases has256 <;>
    simp [QuerySignatureV2AuthHandler._calc_signature, specCanonicalQueryV2,
      specSignatureMethodV2, specStringToSignV2, String.append_assoc]

/-- C4: the V0 strategy never returns the claimed query string and
signature — on the documented inputs (a parameter map holding `Action`
and `Timestamp`) the pair-building loop's first iteration evaluates the
undefined name `bot` and raises `NameError`, here shown at the concrete
failing input. -/
theorem calc_signature_v0_raises_nameerror :
    QuerySignatureV0AuthHandler._calc_signature (fun _ => []) (fun _ => "")
        [("Action", "DescribeInstances"), ("Timestamp", "2011-10-03T15:19:30")] =
      .error (.nameError "bot") := by
  rfl

/-- C5: for every parameter map, the V1 strategy returns the base64 of
the keyed SHA-1 digest over the stream that feeds each key then its UTF-8
value in case-insensitive sorted key order with no separators, together
with the query string of sorted `key=url-escaped-value` pairs joined by
`&`; and on the keys `Z`, `a` the V0/V1 case-insensitive sort gives
`a, Z` while V2's raw byte-order sort gives `Z, a`. -/
theorem calc_signature_v1_spec (hmacSha1Digest : String → List Nat)
    (b64encode : List Nat → String) (params : List (String × String)) :
    QuerySignatureV1AuthHandler._calc_signature hmacSha1Digest b64encode params =
        (specQueryStringV01 params,
         b64encode (hmacSha1Digest (specSignedStreamV1 params))) ∧
      sortKeysCI ["Z", "a"] = ["a", "Z"] ∧ sortKeysRaw ["Z", "a"] = ["Z", "a"] := by
  refine ⟨?_, by decide, by decide⟩
  simp only [QuerySignatureV1AuthHandler._calc_signature, specQueryStringV01,
    specSignedStreamV1, List.map_map]
  rfl

/-- C6: credential resolution returns the `aws_access_key_id` /
`aws_secret_access_key` pair under `Credentials` when the provider is
`aws` and the secret-key option is present, the `gs_access_key_id` /
`gs_secret_access_key` pair when the provider is `google` and its
secret-key option is present, and `none` otherwise; as a Lean function of
`(config, provider)` it is deterministic and has no side effects. -/
theorem get_keys_spec (config : Config) (provider : Provider) :
    HmacKeys._get_keys config provider =
      (if provider.name = "aws" ∧
          config.has_option "Credentials" "aws_secret_access_key" = true then
        some (config.get "Credentials" "aws_access_key_id",
              config.get "Credentials" "aws_secret_access_key")
      else if provider.name = "google" ∧
          config.has_option "Credentials" "gs_secret_access_key" = true then
        some (config.get "Credentials" "gs_access_key_id",
              config.get "Credentials" "gs_secret_access_key")
      else none) := by
  simp only [HmacKeys._get_keys, Bool.and_eq_true, beq_iff_eq]

/-- C8 (counterexample): on Python 2.6/2.7 the V2 signing host for
`ec2.amazonaws.com` on port 443 is the bare host, not the claimed
`host:port` form. -/
theorem server_name_counterexample :
    QuerySignatureHelper._server_name true "ec2.amazonaws.com" 443 =
        "ec2.amazonaws.com" ∧
      "ec2.amazonaws.com" ≠ "ec2.amazonaws.com:443" := by
  exact ⟨rfl, by decide⟩

/-- C8 (amended): the server name used as signing input is the bare host
exactly when port = 80 or when port = 443 under Python 2.6/2.7 (matching
those versions' `httplib` Host header), and `host:port` otherwise. -/
theorem server_name_amended (py26or27 : Bool) (host : String) (port : Nat) :
    QuerySignatureHelper._server_name py26or27 host port =
      if port = 80 ∨ (py26or27 = true ∧ port = 443) then host
      else host ++ ":" ++ toString port := by
  unfold QuerySignatureHelper._server_name
  cases py26or27 <;> by_cases h80 : port = 80 <;> by_cases h443 : port = 443 <;>
    simp [h80, h443]

theorem resolveLoop_errorFree (cs : List Candidate) (acc : List HandlerInst)
    (h : errorFreeB cs = true) :
    resolveLoop cs acc = .ok (acc ++ readyInstances cs) := by
  induction cs generalizing acc with
  | nil => simp [resolveLoop, readyInstances]
  | cons c rest ih =>
    have hc : (match c.outcome with
        | ConstructOutcome.error _ => false
        | _ => true) = true ∧ errorFreeB rest = true := by
      simpa [errorFreeB, List.all_cons, Bool.and_eq_true] using h
    cases hco : c.outcome with
    | ready inst =>
      simp [resolveLoop, hco, readyInstances, List.filterMap_cons,
        ih _ hc.2, readyInstances]
    | notReady =>
      simp [resolveLoop, hco, readyInstances, List.filterMap_cons, ih _ hc.2]
    | error e =>
      rw [hco] at hc
      simp at hc

/-- C1: for every candidate list in which no constructor raises an
exception other than `NotReadyToAuthenticate`, `get_auth_handler` returns
the sole ready instance when exactly one construction succeeds, raises
`NoAuthHandlerFound` carrying the count and names of all checked
candidates when none succeeds, and raises the too-many-handlers error
carrying the names of every ready candidate when more than one succeeds —
never a best-effort pick. -/
theorem get_auth_handler_arbitration (cs : List Candidate)
    (h : errorFreeB cs = true) :
    get_auth_handler cs =
      match readyInstances cs with
      | [] =>
        .error (.noAuthHandlerFound
          ("No handler was ready to authenticate. " ++
           toString (cs.map Candidate.name).length ++
           " handlers were checked. " ++ pyStrList (cs.map Candidate.name) ++
           " "))
      | [inst] => .ok inst
      | h₁ :: h₂ :: t =>
        .error (.tooMany
          (toString ((h₁ :: h₂ :: t).map HandlerInst.className).length ++
           " AuthHandlers ready to authenticate, " ++ "only 1 expected: " ++
           pyStrList ((h₁ :: h₂ :: t).map HandlerInst.className))) := by
  unfold get_auth_handler
  rw [resolveLoop_errorFree cs [] h, List.nil_append]

theorem get_auth_handler_arbitration_witness :
    errorFreeB [⟨"A", ConstructOutcome.notReady⟩,
        ⟨"B", ConstructOutcome.ready ⟨"B"⟩⟩] = true ∧
    get_auth_handler [⟨"A", ConstructOutcome.notReady⟩,
        ⟨"B", ConstructOutcome.ready ⟨"B"⟩⟩] =
      match readyInstances [⟨"A", ConstructOutcome.notReady⟩,
          ⟨"B", ConstructOutcome.ready ⟨"B"⟩⟩] with
      | [] =>
        .error (.noAuthHandlerFound
          ("No handler was ready to authenticate. " ++
           toString (([⟨"A", ConstructOutcome.notReady⟩,
             ⟨"B", ConstructOutcome.ready ⟨"B"⟩⟩] : List Candidate).map
               Candidate.name).length ++
           " handlers were checked. " ++
           pyStrList (([⟨"A", ConstructOutcome.notReady⟩,
             ⟨"B", ConstructOutcome.ready ⟨"B"⟩⟩] : List Candidate).map
               Candidate.name) ++ " "))
      | [inst] => .ok inst
      | h₁ :: h₂ :: t =>
        .error (.tooMany
          (toString ((h₁ :: h₂ :: t).map HandlerInst.className).length ++
           " AuthHandlers ready to authenticate, " ++ "only 1 expected: " ++
           pyStrList ((h₁ :: h₂ :: t).map HandlerInst.className))) :=
  ⟨by decide, get_auth_handler_arbitration _ (by decide)⟩

/-- C3: after a successful `QuerySignatureHelper.add_auth` (shared by the
V0, V1 and V2 strategies, each supplying its `_calc_signature` as
`calcSig`), the request's params map is empty: the parameters, including
the injected `AWSAccessKeyId`, `SignatureVersion` and `Timestamp`, were
folded into the path (non-POST) or body (POST). -/
theorem query_add_auth_clears_params
    (calcSig : List (String × String) → String → String → String →
      Except PyError (String × String))
    (access_key sigVersion timestamp : String) (py26or27 : Bool)
    (req req' : Request)
    (h : QuerySignatureHelper.add_auth calcSig access_key sigVersion
      timestamp py26or27 req = .ok req') :
    req'.params = [] := by
  simp only [QuerySignatureHelper.add_auth] at h
  split at h
  · simp at h
  · split at h <;>
      (simp only [Except.ok.injEq] at h; subst h; rfl)

theorem query_add_auth_clears_params_witness :
    QuerySignatureHelper.add_auth (fun _ _ _ _ => Except.ok ("q", "s")) "AK"
        "2" "2011-10-03T15:19:30" false
        ⟨"GET", "ec2.amazonaws.com", 80, "/", [], [("Action", "X")], ""⟩ =
      Except.ok ⟨"GET", "ec2.amazonaws.com", 80, "/?q&Signature=s", [], [], ""⟩ ∧
      Request.params
        ⟨"GET", "ec2.amazonaws.com", 80, "/?q&Signature=s", [], [], ""⟩ = [] :=
  ⟨rfl,
   query_add_auth_clears_params (fun _ _ _ _ => Except.ok ("q", "s")) "AK" "2"
     "2011-10-03T15:19:30" false
     ⟨"GET", "ec2.amazonaws.com", 80, "/", [], [("Action", "X")], ""⟩
     ⟨"GET", "ec2.amazonaws.com", 80, "/?q&Signature=s", [], [], ""⟩ rfl⟩

/-- C7: the header HMAC strategy sets `Date` to the (externally supplied)
current GMT timestamp only when no `Date` header is present — an existing
one is left unchanged — and sets `Authorization` to
`<auth-scheme> <access_key>:<sig>` where `sig` is the base64 encoding,
with surrounding whitespace stripped, of the SHA-1 keyed-hash digest of
the canonical string. -/
theorem hmac_add_auth_spec
    (canonical_string : String → String → List (String × String) → String)
    (hmacSha1Digest : String → List Nat) (encodestring : List Nat → String)
    (auth_header access_key now : String) (req : Request) :
    ((HmacAuthHandler.add_auth canonical_string hmacSha1Digest encodestring
        auth_header access_key now req).headers.lookup "Date" =
      if (req.headers.lookup "Date").isSome then req.headers.lookup "Date"
      else some now) ∧
    ((HmacAuthHandler.add_auth canonical_string hmacSha1Digest encodestring
        auth_header access_key now req).headers.lookup "Authorization" =
      some (auth_header ++ " " ++ access_key ++ ":" ++
        pyStrip (encodestring (hmacSha1Digest (canonical_string req.method
          (HmacAuthHandler._get_bucket req.host ++ req.path)
          (if (req.headers.lookup "Date").isSome then req.headers
           else dictInsert "Date" now req.headers)))))) := by
  unfold HmacAuthHandler.add_auth
  by_cases hd : (req.headers.lookup "Date").isSome
  · simp only [hd, if_true]
    refine ⟨?_, lookup_dictInsert_self _ _ _⟩
    rw [lookup_dictInsert_ne _ _ _ _ (by decide)]
  · simp only [hd, if_false, Bool.false_eq_true]
    refine ⟨?_, lookup_dictInsert_self _ _ _⟩
    rw [lookup_dictInsert_ne _ _ _ _ (by decide), lookup_dictInsert_self]

theorem resolveLoop_error_aborts (pre rest : List Candidate)
    (acc : List HandlerInst) (n e : String) (h : errorFreeB pre = true) :
    resolveLoop (pre ++ ⟨n, ConstructOutcome.error e⟩ :: rest) acc =
      .error (.uncaught e) := by
  induction pre generalizing acc with
  | nil => simp [resolveLoop]
  | cons c t ih =>
    have hc : (match c.outcome with
        | ConstructOutcome.error _ => false
        | _ => true) = true ∧ errorFreeB t = true := by
      simpa [errorFreeB, List.all_cons, Bool.and_eq_true] using h
    cases hco : c.outcome with
    | ready inst => simp [resolveLoop, hco, ih _ hc.2]
    | notReady => simp [resolveLoop, hco, ih _ hc.2]
    | error e' =>
      rw [hco] at hc
      simp at hc

/-- C9 (counterexample): with a candidate whose constructor raises an
uncaught exception followed by a candidate that would be ready, the
exception aborts the whole resolution — the code does not continue
checking the remaining candidates and return the sole ready instance. -/
theorem uncaught_error_counterexample :
    get_auth_handler [⟨"Bad", ConstructOutcome.error "boom"⟩,
        ⟨"Good", ConstructOutcome.ready ⟨"Good"⟩⟩] =
      .error (.uncaught "boom") ∧
    get_auth_handler [⟨"Bad", ConstructOutcome.error "boom"⟩,
        ⟨"Good", ConstructOutcome.ready ⟨"Good"⟩⟩] ≠
      .ok ⟨"Good"⟩ :=
  ⟨rfl, fun hc => Except.noConfusion hc⟩

/-- C9 (amended): a `NotReadyToAuthenticate` signal from a candidate
constructor is caught and silently excluded from the ready set, while any
other exception raised during instantiation propagates unmodified and
aborts the entire resolution — the remaining candidates are not
checked. -/
theorem uncaught_error_aborts_resolution (pre rest : List Candidate)
    (n e : String) (h : errorFreeB pre = true) :
    get_auth_handler (pre ++ ⟨n, ConstructOutcome.error e⟩ :: rest) =
      .error (.uncaught e) := by
  unfold get_auth_handler
  rw [resolveLoop_error_aborts pre rest [] n e h]

theorem uncaught_error_aborts_resolution_witness :
    errorFreeB [⟨"NotReadyCand", ConstructOutcome.notReady⟩] = true ∧
    get_auth_handler ([⟨"NotReadyCand", ConstructOutcome.notReady⟩] ++
        ⟨"Malformed", ConstructOutcome.error "malformed config"⟩ ::
          [⟨"Ready", ConstructOutcome.ready ⟨"Ready"⟩⟩]) =
      .error (.uncaught "malformed config") :=
  ⟨by decide, uncaught_error_aborts_resolution _ _ _ _ (by decide)⟩

theorem endsWith_trans_le (s a b : String) (ha : pyEndsWith s a = true)
    (hb : pyEndsWith s b = true) (hlen : a.data.length ≤ b.data.length) :
    pyEndsWith b a = true := by
  simp only [pyEndsWith, decide_eq_true_eq] at ha hb ⊢
  have hblen : b.data.length ≤ s.data.length := by
    have hl := congrArg List.length hb
    simp only [List.length_drop] at hl
    omega
  calc b.data.drop (b.data.length - a.data.length)
      = (s.data.drop (s.data.length - b.data.length)).drop
          (b.data.length - a.data.length) := by rw [hb]
    _ = s.data.drop (s.data.length - b.data.length +
          (b.data.length - a.data.length)) := by rw [List.drop_drop]
    _ = s.data.drop (s.data.length - a.data.length) := by
          rw [show s.data.length - b.data.length +
            (b.data.length - a.data.length) =
            s.data.length - a.data.length from by omega]
    _ = a.data := ha

/-- C10: no host passes both the header strategy's host check (suffix
`s3.amazonaws.com` or `commondatastorage.googleapis.com`) and the query
strategies' host check (suffix `.amazonaws.com` but not
`s3.amazonaws.com`), so the two families can never both reach readiness
on the same host. -/
theorem host_checks_mutually_exclusive (host : String) :
    (hmacHostEligible host && queryHostEligible host) = false := by
  by_cases hs3 : pyEndsWith host "s3.amazonaws.com" = true
  · simp [hmacHostEligible, queryHostEligible, S3_ENDPOINT, hs3]
  · have hs3' : pyEndsWith host "s3.amazonaws.com" = false :=
      Bool.not_eq_true _ ▸ Bool.of_not_eq_true hs3
    by_cases hgs : pyEndsWith host GS_ENDPOINT = true
    · by_cases hamz : pyEndsWith host ".amazonaws.com" = true
      · exfalso
        have h := endsWith_trans_le host ".amazonaws.com" GS_ENDPOINT hamz hgs
          (by decide)
        exact absurd h (by decide)
      · have hamz' : pyEndsWith host ".amazonaws.com" = false :=
          Bool.not_eq_true _ ▸ Bool.of_not_eq_true hamz
        simp [hmacHostEligible, queryHostEligible, hamz']
    · have hgs' : pyEndsWith host GS_ENDPOINT = false :=
        Bool.not_eq_true _ ▸ Bool.of_not_eq_true hgs
      simp [hmacHostEligible, queryHostEligible, S3_ENDPOINT, hs3', hgs']

end BotoAuth
